import Mathlib

/-
Verification of the farm budget formula engine (cost, revenue, government
payment calculators) against its natural-language specification.

The Python engines are shallowly embedded: each engine instance becomes a
structure whose fields are the named numeric facts the engine reads from its
data files (attributes set by setattr at construction), and each method
becomes a Lean function on that structure.  Python floats are modelled as
exact rationals; Python's built-in round (banker's rounding, round half to
even) is modelled by pyRound below.
-/

/-- Python's built-in round on a rational: round half to even. -/
def pyRound (q : ℚ) : ℤ :=
  if q - (⌊q⌋ : ℚ) < 1/2 then ⌊q⌋
  else if 1/2 < q - (⌊q⌋ : ℚ) then ⌊q⌋ + 1
  else if 2 ∣ ⌊q⌋ then ⌊q⌋ else ⌊q⌋ + 1

/-- The three crops the engines know about. -/
inductive Crop
  | corn
  | soy
  | wheat
deriving DecidableEq

/-- The two crops supported by the fertilizer, diesel, gas/electric, payroll
and overhead formulas (wheat is excluded from those). -/
inductive CS
  | corn
  | soy
deriving DecidableEq

def CS.toCrop : CS → Crop
  | CS.corn => Crop.corn
  | CS.soy => Crop.soy

/-- Error raised when a caller passes a crop name outside a formula's
supported set (the source raises ValueError "crop must be ..."). -/
inductive CropError
  | invalidCrop
deriving DecidableEq

/-- Parse a crop string against the corn/soy supported set, mirroring
the membership test `crop not in ['corn', 'soy']`. -/
def parseCS (s : String) : Option CS :=
  if s = "corn" then some CS.corn
  else if s = "soy" then some CS.soy
  else none

/-- Parse a crop string against the corn/soy/wheat supported set, mirroring
the membership test `crop not in ['corn', 'soy', 'wheat']`. -/
def parseCrop (s : String) : Option Crop :=
  if s = "corn" then some Crop.corn
  else if s = "soy" then some Crop.soy
  else if s = "wheat" then some Crop.wheat
  else none

/-
Cost engine (cost.py).  Fields are the facts the engine reads;
accessors keyed by CS mirror the getattr pattern on crop-suffixed names.
-/

structure Cost where
  acres_corn : ℚ
  acres_soy : ℚ
  acres_wheat_dc_soy : ℚ
  proj_yield_farm_corn : ℚ
  proj_yield_farm_dc_soy : ℚ
  proj_yield_farm_full_soy : ℚ
  proj_yield_farm_wheat : ℚ
  dap_corn : ℚ
  dap_soy : ℚ
  repl_potash_corn : ℚ
  repl_potash_soy : ℚ
  cur_est_fertiilizer_cost_corn : ℚ
  cur_est_fertiilizer_cost_soy : ℚ
  incremental_wheat_cost_base : ℚ
  wheat_hauling_base : ℚ
  clear_gpa_2018 : ℚ
  clear_diesel_price : ℚ
  dyed_gpa_2018 : ℚ
  dyed_diesel_price : ℚ
  fuel_alloc_corn : ℚ
  fuel_alloc_soy : ℚ
  est_haul_alloc : ℚ
  yield_2018_corn : ℚ
  yield_2018_soy : ℚ
  gas_electric_corn : ℚ
  gas_electric_soy : ℚ
  seed_plus_treatment_corn : ℚ
  seed_plus_treatment_soy : ℚ
  chemicals_corn : ℚ
  chemicals_soy : ℚ
  wind_peril_premium_corn : ℚ
  wind_peril_premium_soy : ℚ
  minus_wind_peril_indemnity_corn : ℚ
  minus_wind_peril_indemnity_soy : ℚ
  est_payroll : ℚ
  payroll_alloc_corn : ℚ
  payroll_alloc_soy : ℚ
  payroll_pct_ot : ℚ
  replacement_capital_corn : ℚ
  replacement_capital_soy : ℚ
  building_equip_repairs_corn : ℚ
  building_equip_repairs_soy : ℚ
  shop_tools_supplies_parts_corn : ℚ
  shop_tools_supplies_parts_soy : ℚ
  business_insurance_corn : ℚ
  business_insurance_soy : ℚ
  other_utilities_corn : ℚ
  other_utilities_soy : ℚ
  professional_fees_corn : ℚ
  professional_fees_soy : ℚ
  other_operating_expense_corn : ℚ
  other_operating_expense_soy : ℚ
  total_land_expenses_corn : ℚ
  total_land_expenses_soy : ℚ

def Cost.dap (c : Cost) : CS → ℚ
  | CS.corn => c.dap_corn
  | CS.soy => c.dap_soy

def Cost.repl_potash (c : Cost) : CS → ℚ
  | CS.corn => c.repl_potash_corn
  | CS.soy => c.repl_potash_soy

def Cost.cur_est_fertiilizer_cost (c : Cost) : CS → ℚ
  | CS.corn => c.cur_est_fertiilizer_cost_corn
  | CS.soy => c.cur_est_fertiilizer_cost_soy

def Cost.acres (c : Cost) : CS → ℚ
  | CS.corn => c.acres_corn
  | CS.soy => c.acres_soy

def Cost.fuel_alloc (c : Cost) : CS → ℚ
  | CS.corn => c.fuel_alloc_corn
  | CS.soy => c.fuel_alloc_soy

def Cost.yield_2018 (c : Cost) : CS → ℚ
  | CS.corn => c.yield_2018_corn
  | CS.soy => c.yield_2018_soy

def Cost.gas_electric (c : Cost) : CS → ℚ
  | CS.corn => c.gas_electric_corn
  | CS.soy => c.gas_electric_soy

def Cost.seed_plus_treatment (c : Cost) : CS → ℚ
  | CS.corn => c.seed_plus_treatment_corn
  | CS.soy => c.seed_plus_treatment_soy

def Cost.chemicals (c : Cost) : CS → ℚ
  | CS.corn => c.chemicals_corn
  | CS.soy => c.chemicals_soy

def Cost.wind_peril_premium (c : Cost) : CS → ℚ
  | CS.corn => c.wind_peril_premium_corn
  | CS.soy => c.wind_peril_premium_soy

def Cost.minus_wind_peril_indemnity (c : Cost) : CS → ℚ
  | CS.corn => c.minus_wind_peril_indemnity_corn
  | CS.soy => c.minus_wind_peril_indemnity_soy

def Cost.payroll_alloc (c : Cost) : CS → ℚ
  | CS.corn => c.payroll_alloc_corn
  | CS.soy => c.payroll_alloc_soy

def Cost.replacement_capital (c : Cost) : CS → ℚ
  | CS.corn => c.replacement_capital_corn
  | CS.soy => c.replacement_capital_soy

def Cost.building_equip_repairs (c : Cost) : CS → ℚ
  | CS.corn => c.building_equip_repairs_corn
  | CS.soy => c.building_equip_repairs_soy

def Cost.shop_tools_supplies_parts (c : Cost) : CS → ℚ
  | CS.corn => c.shop_tools_supplies_parts_corn
  | CS.soy => c.shop_tools_supplies_parts_soy

def Cost.business_insurance (c : Cost) : CS → ℚ
  | CS.corn => c.business_insurance_corn
  | CS.soy => c.business_insurance_soy

def Cost.other_utilities (c : Cost) : CS → ℚ
  | CS.corn => c.other_utilities_corn
  | CS.soy => c.other_utilities_soy

def Cost.professional_fees (c : Cost) : CS → ℚ
  | CS.corn => c.professional_fees_corn
  | CS.soy => c.professional_fees_soy

def Cost.other_operating_expense (c : Cost) : CS → ℚ
  | CS.corn => c.other_operating_expense_corn
  | CS.soy => c.other_operating_expense_soy

def Cost.total_land_expenses (c : Cost) : CS → ℚ
  | CS.corn => c.total_land_expenses_corn
  | CS.soy => c.total_land_expenses_soy

/-- proj_yield_farm_crop: corn and wheat use their own baseline projected
yield; soy is the double-crop / full-season weighted blend. -/
def Cost.proj_yield_farm_crop (c : Cost) : Crop → ℚ
  | Crop.soy =>
      (c.acres_wheat_dc_soy * c.proj_yield_farm_dc_soy +
        (c.acres_soy - c.acres_wheat_dc_soy) * c.proj_yield_farm_full_soy) /
        c.acres_soy
  | Crop.corn => c.proj_yield_farm_corn
  | Crop.wheat => c.proj_yield_farm_wheat

/-- yield_dep_repl_fert_crop: round((dap + repl_potash) * yield_factor). -/
def Cost.yield_dep_repl_fert_crop (c : Cost) (cp : CS) (yf : ℚ) : ℤ :=
  pyRound ((c.dap cp + c.repl_potash cp) * yf)

/-- yield_indep_repl_fert_crop:
round(cur_est_fertiilizer_cost - yield_dep_repl_fert_crop at yf = 1). -/
def Cost.yield_indep_repl_fert_crop (c : Cost) (cp : CS) : ℤ :=
  pyRound (c.cur_est_fertiilizer_cost cp - (c.yield_dep_repl_fert_crop cp 1 : ℚ))

/-- total_fert_crop = yield-independent + yield-dependent replacement. -/
def Cost.total_fert_crop (c : Cost) (cp : CS) (yf : ℚ) : ℤ :=
  c.yield_indep_repl_fert_crop cp + c.yield_dep_repl_fert_crop cp yf

/-- incremental_wheat_cost: only the hauling component is sensitized. -/
def Cost.incremental_wheat_cost (c : Cost) (yf : ℚ) : ℤ :=
  pyRound (c.incremental_wheat_cost_base + c.wheat_hauling_base * (yf - 1))

def Cost.clear_diesel_base_cost_crop (c : Cost) (cp : CS) : ℚ :=
  c.clear_gpa_2018 * c.acres cp * c.clear_diesel_price * c.fuel_alloc cp

/-- clear_diesel_cost_crop: only the hauling-allocated share scales with
the yield ratio times the yield factor. -/
def Cost.clear_diesel_cost_crop (c : Cost) (cp : CS) (yf : ℚ) : ℤ :=
  pyRound (c.clear_diesel_base_cost_crop cp *
    ((1 - c.est_haul_alloc) +
      c.est_haul_alloc * c.proj_yield_farm_crop cp.toCrop / c.yield_2018 cp * yf))

def Cost.dyed_diesel_cost_crop (c : Cost) (cp : CS) : ℤ :=
  pyRound (c.dyed_gpa_2018 * c.acres cp * c.dyed_diesel_price * c.fuel_alloc cp)

def Cost.diesel_cost_crop (c : Cost) (cp : CS) (yf : ℚ) : ℤ :=
  c.clear_diesel_cost_crop cp yf + c.dyed_diesel_cost_crop cp

def Cost.gas_electric_cost_crop (c : Cost) (cp : CS) (yf : ℚ) : ℤ :=
  pyRound (c.gas_electric cp * yf)

/-- The corn/soy branch of total_variable_cost_crop. -/
def Cost.cs_variable_cost (c : Cost) (cp : CS) (yf : ℚ) : ℚ :=
  c.seed_plus_treatment cp + c.chemicals cp + c.wind_peril_premium cp +
    c.minus_wind_peril_indemnity cp + (c.total_fert_crop cp yf : ℚ) +
    (c.diesel_cost_crop cp yf : ℚ) + (c.gas_electric_cost_crop cp yf : ℚ)

def Cost.total_variable_cost_crop (c : Cost) (cp : Crop) (yf : ℚ) : ℚ :=
  match cp with
  | Crop.wheat => (c.incremental_wheat_cost yf : ℚ)
  | Crop.corn => c.cs_variable_cost CS.corn yf
  | Crop.soy => c.cs_variable_cost CS.soy yf

def Cost.total_variable_cost (c : Cost) (yf : ℚ) : ℚ :=
  c.total_variable_cost_crop Crop.corn yf + c.total_variable_cost_crop Crop.soy yf +
    c.total_variable_cost_crop Crop.wheat yf

/-- payroll_crop: the overtime portion scales with the yield ratio. -/
def Cost.payroll_crop (c : Cost) (cp : CS) (yf : ℚ) : ℤ :=
  pyRound (c.est_payroll * c.payroll_alloc cp *
    (1 + c.payroll_pct_ot *
      (c.proj_yield_farm_crop cp.toCrop * yf / c.yield_2018 cp - 1)))

def Cost.total_payroll (c : Cost) (yf : ℚ) : ℤ :=
  c.payroll_crop CS.corn yf + c.payroll_crop CS.soy yf

def Cost.total_overhead_crop (c : Cost) (cp : CS) (yf : ℚ) : ℚ :=
  (c.payroll_crop cp yf : ℚ) + c.replacement_capital cp +
    c.building_equip_repairs cp + c.shop_tools_supplies_parts cp +
    c.business_insurance cp + c.other_utilities cp + c.professional_fees cp +
    c.other_operating_expense cp + c.total_land_expenses cp

def Cost.total_overhead (c : Cost) (yf : ℚ) : ℚ :=
  c.total_overhead_crop CS.corn yf + c.total_overhead_crop CS.soy yf

def Cost.total_cost (c : Cost) (yf : ℚ) : ℚ :=
  c.total_variable_cost yf + c.total_overhead yf

/-
String-level entry points with the source's synchronous crop validation
(`if crop not in [...]: raise ValueError(...)`), performed before any
fact is read.
-/

def Cost.total_fert_crop_checked (c : Cost) (s : String) (yf : ℚ) :
    Except CropError ℤ :=
  match parseCS s with
  | some cp => Except.ok (c.total_fert_crop cp yf)
  | none => Except.error CropError.invalidCrop

def Cost.diesel_cost_crop_checked (c : Cost) (s : String) (yf : ℚ) :
    Except CropError ℤ :=
  match parseCS s with
  | some cp => Except.ok (c.diesel_cost_crop cp yf)
  | none => Except.error CropError.invalidCrop

def Cost.gas_electric_cost_crop_checked (c : Cost) (s : String) (yf : ℚ) :
    Except CropError ℤ :=
  match parseCS s with
  | some cp => Except.ok (c.gas_electric_cost_crop cp yf)
  | none => Except.error CropError.invalidCrop

def Cost.payroll_crop_checked (c : Cost) (s : String) (yf : ℚ) :
    Except CropError ℤ :=
  match parseCS s with
  | some cp => Except.ok (c.payroll_crop cp yf)
  | none => Except.error CropError.invalidCrop

def Cost.total_overhead_crop_checked (c : Cost) (s : String) (yf : ℚ) :
    Except CropError ℚ :=
  match parseCS s with
  | some cp => Except.ok (c.total_overhead_crop cp yf)
  | none => Except.error CropError.invalidCrop

def Cost.total_variable_cost_crop_checked (c : Cost) (s : String) (yf : ℚ) :
    Except CropError ℚ :=
  match parseCrop s with
  | some cp => Except.ok (c.total_variable_cost_crop cp yf)
  | none => Except.error CropError.invalidCrop

/-
Revenue engine (revenue.py).
-/

structure Revenue where
  acres_corn : ℚ
  proj_yield_farm_corn : ℚ
  est_shrink_corn : ℚ
  acres_wheat_dc_soy : ℚ
  proj_yield_farm_dc_soy : ℚ
  acres_soy : ℚ
  proj_yield_farm_full_soy : ℚ
  est_shrink_soy : ℚ
  contract_bu_corn : ℚ
  contract_bu_soy : ℚ
  fall_futures_price_corn : ℚ
  fall_futures_price_soy : ℚ
  est_basis_corn : ℚ
  est_basis_soy : ℚ
  est_deduct_corn : ℚ
  est_deduct_soy : ℚ
  avg_contract_price_corn : ℚ
  avg_contract_price_soy : ℚ
  revenue_wheat : ℚ
  ppp_loan_forgive_corn : ℚ
  ppp_loan_forgive_soy : ℚ
  mfp_cfap_corn : ℚ
  mfp_cfap_soy : ℚ
  rental_revenue_corn : ℚ
  rental_revenue_soy : ℚ
  other_revenue_corn : ℚ
  other_revenue_soy : ℚ

def Revenue.contract_bu (r : Revenue) : CS → ℚ
  | CS.corn => r.contract_bu_corn
  | CS.soy => r.contract_bu_soy

def Revenue.fall_futures_price (r : Revenue) : CS → ℚ
  | CS.corn => r.fall_futures_price_corn
  | CS.soy => r.fall_futures_price_soy

def Revenue.est_basis (r : Revenue) : CS → ℚ
  | CS.corn => r.est_basis_corn
  | CS.soy => r.est_basis_soy

def Revenue.est_deduct (r : Revenue) : CS → ℚ
  | CS.corn => r.est_deduct_corn
  | CS.soy => r.est_deduct_soy

def Revenue.avg_contract_price (r : Revenue) : CS → ℚ
  | CS.corn => r.avg_contract_price_corn
  | CS.soy => r.avg_contract_price_soy

def Revenue.deliverable_bu_corn (r : Revenue) (yf : ℚ) : ℚ :=
  r.acres_corn * r.proj_yield_farm_corn * (1 - r.est_shrink_corn / 100) * yf

def Revenue.estimated_soy_bushels (r : Revenue) : ℚ :=
  r.acres_wheat_dc_soy * r.proj_yield_farm_dc_soy +
    (r.acres_soy - r.acres_wheat_dc_soy) * r.proj_yield_farm_full_soy

def Revenue.projected_yield_soy (r : Revenue) : ℚ :=
  r.estimated_soy_bushels / r.acres_soy

def Revenue.deliverable_bu_soy (r : Revenue) (yf : ℚ) : ℚ :=
  r.estimated_soy_bushels * (1 - r.est_shrink_soy / 100) * yf

def Revenue.revenue_uncontracted_crop (r : Revenue) (cp : CS) (pf yf : ℚ) : ℤ :=
  pyRound
    (((match cp with
       | CS.corn => r.deliverable_bu_corn yf
       | CS.soy => r.deliverable_bu_soy yf) - r.contract_bu cp) *
      (r.fall_futures_price cp * pf + r.est_basis cp) *
      (1 - r.est_deduct cp / 100))

def Revenue.revenue_uncontracted (r : Revenue) (pf yf : ℚ) : ℤ :=
  r.revenue_uncontracted_crop CS.corn pf yf + r.revenue_uncontracted_crop CS.soy pf yf

def Revenue.revenue_contracted_crop (r : Revenue) (cp : CS) : ℤ :=
  pyRound (r.contract_bu cp * r.avg_contract_price cp * (1 - r.est_deduct cp / 100))

/-- revenue_contracted takes a price_factor parameter it never uses,
exactly as in the source. -/
def Revenue.revenue_contracted (r : Revenue) (price_factor : ℚ) : ℤ :=
  r.revenue_contracted_crop CS.corn + r.revenue_contracted_crop CS.soy

def Revenue.total_revenue_crop (r : Revenue) (cp : Crop) (pf yf : ℚ) : ℚ :=
  match cp with
  | Crop.wheat => r.revenue_wheat
  | Crop.corn =>
      (r.revenue_contracted_crop CS.corn + r.revenue_uncontracted_crop CS.corn pf yf : ℤ)
  | Crop.soy =>
      (r.revenue_contracted_crop CS.soy + r.revenue_uncontracted_crop CS.soy pf yf : ℤ)

def Revenue.total_revenue_other (r : Revenue) : ℚ :=
  (r.ppp_loan_forgive_corn + r.mfp_cfap_corn + r.rental_revenue_corn +
      r.other_revenue_corn) +
    (r.ppp_loan_forgive_soy + r.mfp_cfap_soy + r.rental_revenue_soy +
      r.other_revenue_soy)

/-- total_revenue: revenue_contracted is invoked with its default
price factor of 1, as in the source. -/
def Revenue.total_revenue (r : Revenue) (pf yf : ℚ) : ℚ :=
  r.revenue_wheat + (r.revenue_uncontracted pf yf : ℚ) +
    (r.revenue_contracted 1 : ℚ) + r.total_revenue_other

def Revenue.total_revenue_crop_checked (r : Revenue) (s : String) (pf yf : ℚ) :
    Except CropError ℚ :=
  match parseCrop s with
  | some cp => Except.ok (r.total_revenue_crop cp pf yf)
  | none => Except.error CropError.invalidCrop

/-
Government payment engine (gov_pmt.py).
-/

structure GovPmt where
  fut_price_corn : ℚ
  fut_price_soy : ℚ
  fut_price_wheat : ℚ
  decrement_from_futures_to_mya_corn : ℚ
  decrement_from_futures_to_mya_soy : ℚ
  decrement_from_futures_to_mya_wheat : ℚ
  farm_base_acres_corn : ℚ
  farm_base_acres_soy : ℚ
  farm_base_acres_wheat : ℚ
  natl_loan_rate_corn : ℚ
  natl_loan_rate_soy : ℚ
  natl_loan_rate_wheat : ℚ
  stat_ref_rate_farm_bill_corn : ℚ
  stat_ref_rate_farm_bill_soy : ℚ
  stat_ref_rate_farm_bill_wheat : ℚ
  stat_ref_rate_new_escal_corn : ℚ
  stat_ref_rate_new_escal_soy : ℚ
  stat_ref_rate_new_escal_wheat : ℚ
  farm_plc_bu_corn : ℚ
  farm_plc_bu_soy : ℚ
  farm_plc_bu_wheat : ℚ
  arc_price_corn : ℚ
  arc_price_soy : ℚ
  arc_price_wheat : ℚ
  arc_yield_corn : ℚ
  arc_yield_soy : ℚ
  arc_yield_wheat : ℚ
  est_county_yield_corn : ℚ
  est_county_yield_soy : ℚ
  est_county_yield_wheat : ℚ
  program_corn : ℚ
  program_soy : ℚ
  program_wheat : ℚ
  base_to_net_pmt_frac : ℚ
  rate_cap_factor_new_escal : ℚ
  cap_on_bmk_cty_rev : ℚ
  guar_rev_frac : ℚ
  sequest_frac : ℚ
  fsa_pmt_cap : ℚ

/-- The PLC program selector constant (class attribute PLC = 1). -/
def GovPmt.PLC : ℚ := 1

/-- The ARC-CO program selector constant (class attribute ARC_CO = 2). -/
def GovPmt.ARC_CO : ℚ := 2

def GovPmt.fut_price (g : GovPmt) : Crop → ℚ
  | Crop.corn => g.fut_price_corn
  | Crop.soy => g.fut_price_soy
  | Crop.wheat => g.fut_price_wheat

def GovPmt.decrement_from_futures_to_mya (g : GovPmt) : Crop → ℚ
  | Crop.corn => g.decrement_from_futures_to_mya_corn
  | Crop.soy => g.decrement_from_futures_to_mya_soy
  | Crop.wheat => g.decrement_from_futures_to_mya_wheat

def GovPmt.farm_base_acres (g : GovPmt) : Crop → ℚ
  | Crop.corn => g.farm_base_acres_corn
  | Crop.soy => g.farm_base_acres_soy
  | Crop.wheat => g.farm_base_acres_wheat

def GovPmt.natl_loan_rate (g : GovPmt) : Crop → ℚ
  | Crop.corn => g.natl_loan_rate_corn
  | Crop.soy => g.natl_loan_rate_soy
  | Crop.wheat => g.natl_loan_rate_wheat

def GovPmt.stat_ref_rate_farm_bill (g : GovPmt) : Crop → ℚ
  | Crop.corn => g.stat_ref_rate_farm_bill_corn
  | Crop.soy => g.stat_ref_rate_farm_bill_soy
  | Crop.wheat => g.stat_ref_rate_farm_bill_wheat

def GovPmt.stat_ref_rate_new_escal (g : GovPmt) : Crop → ℚ
  | Crop.corn => g.stat_ref_rate_new_escal_corn
  | Crop.soy => g.stat_ref_rate_new_escal_soy
  | Crop.wheat => g.stat_ref_rate_new_escal_wheat

def GovPmt.farm_plc_bu (g : GovPmt) : Crop → ℚ
  | Crop.corn => g.farm_plc_bu_corn
  | Crop.soy => g.farm_plc_bu_soy
  | Crop.wheat => g.farm_plc_bu_wheat

def GovPmt.arc_price (g : GovPmt) : Crop → ℚ
  | Crop.corn => g.arc_price_corn
  | Crop.soy => g.arc_price_soy
  | Crop.wheat => g.arc_price_wheat

def GovPmt.arc_yield (g : GovPmt) : Crop → ℚ
  | Crop.corn => g.arc_yield_corn
  | Crop.soy => g.arc_yield_soy
  | Crop.wheat => g.arc_yield_wheat

def GovPmt.est_county_yield (g : GovPmt) : Crop → ℚ
  | Crop.corn => g.est_county_yield_corn
  | Crop.soy => g.est_county_yield_soy
  | Crop.wheat => g.est_county_yield_wheat

def GovPmt.program (g : GovPmt) : Crop → ℚ
  | Crop.corn => g.program_corn
  | Crop.soy => g.program_soy
  | Crop.wheat => g.program_wheat

def GovPmt.assumed_mya_price (g : GovPmt) (cp : Crop) (pf : ℚ) : ℚ :=
  g.fut_price cp * pf - g.decrement_from_futures_to_mya cp

def GovPmt.net_payment_acres (g : GovPmt) (cp : Crop) : ℚ :=
  g.base_to_net_pmt_frac * g.farm_base_acres cp

def GovPmt.effective_price (g : GovPmt) (cp : Crop) (pf : ℚ) : ℚ :=
  max (g.natl_loan_rate cp) (g.assumed_mya_price cp pf)

def GovPmt.effective_ref_rate (g : GovPmt) (cp : Crop) : ℚ :=
  max (g.stat_ref_rate_farm_bill cp)
    (min (g.stat_ref_rate_new_escal cp)
      (g.rate_cap_factor_new_escal * g.stat_ref_rate_farm_bill cp))

def GovPmt.plc_payment_rate1 (g : GovPmt) (cp : Crop) (pf : ℚ) : ℚ :=
  max (g.effective_ref_rate cp - g.effective_price cp pf) 0

def GovPmt.max_plc_payment_rate (g : GovPmt) (cp : Crop) : ℚ :=
  g.stat_ref_rate_farm_bill cp - g.natl_loan_rate cp

def GovPmt.plc_payment_rate (g : GovPmt) (cp : Crop) (pf : ℚ) : ℚ :=
  min (g.plc_payment_rate1 cp pf) (g.max_plc_payment_rate cp)

def GovPmt.farm_plc_yield (g : GovPmt) (cp : Crop) : ℚ :=
  g.farm_plc_bu cp / g.farm_base_acres cp

def GovPmt.plc_pmt_pre_sequest (g : GovPmt) (cp : Crop) (pf : ℚ) : ℚ :=
  g.plc_payment_rate cp pf * g.net_payment_acres cp * g.farm_plc_yield cp

def GovPmt.arc_bmk_county_revenue (g : GovPmt) (cp : Crop) : ℚ :=
  g.arc_price cp * g.arc_yield cp

def GovPmt.arc_capped_bmk_revenue (g : GovPmt) (cp : Crop) : ℚ :=
  g.arc_bmk_county_revenue cp * g.cap_on_bmk_cty_rev

def GovPmt.arc_guar_revenue (g : GovPmt) (cp : Crop) : ℚ :=
  g.arc_bmk_county_revenue cp * g.guar_rev_frac

def GovPmt.county_rma_yield (g : GovPmt) (cp : Crop) (yf : ℚ) : ℚ :=
  g.est_county_yield cp * yf

def GovPmt.actual_crop_revenue (g : GovPmt) (cp : Crop) (pf yf : ℚ) : ℚ :=
  max (g.assumed_mya_price cp pf) (g.natl_loan_rate cp) * g.county_rma_yield cp yf

def GovPmt.revenue_shortfall (g : GovPmt) (cp : Crop) (pf yf : ℚ) : ℚ :=
  max 0 (g.arc_guar_revenue cp - g.actual_crop_revenue cp pf yf)

def GovPmt.arc_pmt_rate (g : GovPmt) (cp : Crop) (pf yf : ℚ) : ℚ :=
  min (g.arc_capped_bmk_revenue cp) (g.revenue_shortfall cp pf yf)

def GovPmt.arc_pmt_pre_sequest (g : GovPmt) (cp : Crop) (pf yf : ℚ) : ℚ :=
  g.net_payment_acres cp * g.arc_pmt_rate cp pf yf

def GovPmt.prog_pmt_pre_sequest_crop (g : GovPmt) (cp : Crop) (pf yf : ℚ) : ℚ :=
  if g.program cp = GovPmt.ARC_CO then g.arc_pmt_pre_sequest cp pf yf
  else g.plc_pmt_pre_sequest cp pf

def GovPmt.prog_pmt_pre_sequest (g : GovPmt) (pf yf : ℚ) : ℚ :=
  g.prog_pmt_pre_sequest_crop Crop.corn pf yf +
    g.prog_pmt_pre_sequest_crop Crop.soy pf yf +
    g.prog_pmt_pre_sequest_crop Crop.wheat pf yf

def GovPmt.prog_pmt_post_sequest (g : GovPmt) (pf yf : ℚ) : ℚ :=
  g.prog_pmt_pre_sequest pf yf * (1 - g.sequest_frac)

def GovPmt.total_gov_pmt (g : GovPmt) (pf yf : ℚ) : ℤ :=
  pyRound (min (g.prog_pmt_post_sequest pf yf) g.fsa_pmt_cap)

/-- Update one crop's program selector, leaving all other facts alone
(the selector is a plain mutable attribute in the source). -/
def GovPmt.setProgram (g : GovPmt) (cp : Crop) (v : ℚ) : GovPmt :=
  match cp with
  | Crop.corn => { g with program_corn := v }
  | Crop.soy => { g with program_soy := v }
  | Crop.wheat => { g with program_wheat := v }

/-
Fact loading (GovPmt.__init__ / _load_required_data): the farm-data pairs
are concatenated with the domain-data pairs and bound one at a time with
setattr, so a later pair with the same name rebinds the attribute.
-/

/-- One setattr step: bind kv.1 to kv.2, shadowing any earlier binding. -/
def setStep (m : String → Option ℚ) (kv : String × ℚ) : String → Option ℚ :=
  fun s => if s = kv.1 then some kv.2 else m s

/-- Run the setattr loop over a pair list, starting from attribute map m. -/
def applyPairsFrom (m : String → Option ℚ) (pairs : List (String × ℚ)) :
    String → Option ℚ :=
  pairs.foldl setStep m

/-- The attributes produced by the setattr loop over a pair list. -/
def applyPairs (pairs : List (String × ℚ)) : String → Option ℚ :=
  applyPairsFrom (fun _ => none) pairs

/-- _load_required_data: farm pairs first, then domain pairs, fed to the
setattr loop in that order. -/
def load_required_data (farm domain : List (String × ℚ)) : String → Option ℚ :=
  applyPairs (farm ++ domain)

/-
Factor-free baselines: the same fact-derived formulas with every
sensitivity factor erased.  Used to state the factor = 1.0 identity.
-/

def Cost.yield_dep_repl_fert_crop_bl (c : Cost) (cp : CS) : ℤ :=
  pyRound (c.dap cp + c.repl_potash cp)

def Cost.yield_indep_repl_fert_crop_bl (c : Cost) (cp : CS) : ℤ :=
  pyRound (c.cur_est_fertiilizer_cost cp - (c.yield_dep_repl_fert_crop_bl cp : ℚ))

def Cost.total_fert_crop_bl (c : Cost) (cp : CS) : ℤ :=
  c.yield_indep_repl_fert_crop_bl cp + c.yield_dep_repl_fert_crop_bl cp

def Cost.incremental_wheat_cost_bl (c : Cost) : ℤ :=
  pyRound c.incremental_wheat_cost_base

def Cost.clear_diesel_cost_crop_bl (c : Cost) (cp : CS) : ℤ :=
  pyRound (c.clear_diesel_base_cost_crop cp *
    ((1 - c.est_haul_alloc) +
      c.est_haul_alloc * c.proj_yield_farm_crop cp.toCrop / c.yield_2018 cp))

def Cost.diesel_cost_crop_bl (c : Cost) (cp : CS) : ℤ :=
  c.clear_diesel_cost_crop_bl cp + c.dyed_diesel_cost_crop cp

def Cost.gas_electric_cost_crop_bl (c : Cost) (cp : CS) : ℤ :=
  pyRound (c.gas_electric cp)

def Cost.cs_variable_cost_bl (c : Cost) (cp : CS) : ℚ :=
  c.seed_plus_treatment cp + c.chemicals cp + c.wind_peril_premium cp +
    c.minus_wind_peril_indemnity cp + (c.total_fert_crop_bl cp : ℚ) +
    (c.diesel_cost_crop_bl cp : ℚ) + (c.gas_electric_cost_crop_bl cp : ℚ)

def Cost.total_variable_cost_crop_bl (c : Cost) (cp : Crop) : ℚ :=
  match cp with
  | Crop.wheat => (c.incremental_wheat_cost_bl : ℚ)
  | Crop.corn => c.cs_variable_cost_bl CS.corn
  | Crop.soy => c.cs_variable_cost_bl CS.soy

def Cost.total_variable_cost_bl (c : Cost) : ℚ :=
  c.total_variable_cost_crop_bl Crop.corn + c.total_variable_cost_crop_bl Crop.soy +
    c.total_variable_cost_crop_bl Crop.wheat

def Cost.payroll_crop_bl (c : Cost) (cp : CS) : ℤ :=
  pyRound (c.est_payroll * c.payroll_alloc cp *
    (1 + c.payroll_pct_ot *
      (c.proj_yield_farm_crop cp.toCrop / c.yield_2018 cp - 1)))

def Cost.total_overhead_crop_bl (c : Cost) (cp : CS) : ℚ :=
  (c.payroll_crop_bl cp : ℚ) + c.replacement_capital cp +
    c.building_equip_repairs cp + c.shop_tools_supplies_parts cp +
    c.business_insurance cp + c.other_utilities cp + c.professional_fees cp +
    c.other_operating_expense cp + c.total_land_expenses cp

def Cost.total_overhead_bl (c : Cost) : ℚ :=
  c.total_overhead_crop_bl CS.corn + c.total_overhead_crop_bl CS.soy

def Cost.total_cost_bl (c : Cost) : ℚ :=
  c.total_variable_cost_bl + c.total_overhead_bl

def Revenue.deliverable_bu_corn_bl (r : Revenue) : ℚ :=
  r.acres_corn * r.proj_yield_farm_corn * (1 - r.est_shrink_corn / 100)

def Revenue.deliverable_bu_soy_bl (r : Revenue) : ℚ :=
  r.estimated_soy_bushels * (1 - r.est_shrink_soy / 100)

def Revenue.revenue_uncontracted_crop_bl (r : Revenue) (cp : CS) : ℤ :=
  pyRound
    (((match cp with
       | CS.corn => r.deliverable_bu_corn_bl
       | CS.soy => r.deliverable_bu_soy_bl) - r.contract_bu cp) *
      (r.fall_futures_price cp + r.est_basis cp) *
      (1 - r.est_deduct cp / 100))

def Revenue.revenue_uncontracted_bl (r : Revenue) : ℤ :=
  r.revenue_uncontracted_crop_bl CS.corn + r.revenue_uncontracted_crop_bl CS.soy

def Revenue.total_revenue_bl (r : Revenue) : ℚ :=
  r.revenue_wheat + (r.revenue_uncontracted_bl : ℚ) +
    (r.revenue_contracted 1 : ℚ) + r.total_revenue_other

def GovPmt.assumed_mya_price_bl (g : GovPmt) (cp : Crop) : ℚ :=
  g.fut_price cp - g.decrement_from_futures_to_mya cp

def GovPmt.effective_price_bl (g : GovPmt) (cp : Crop) : ℚ :=
  max (g.natl_loan_rate cp) (g.assumed_mya_price_bl cp)

def GovPmt.plc_payment_rate1_bl (g : GovPmt) (cp : Crop) : ℚ :=
  max (g.effective_ref_rate cp - g.effective_price_bl cp) 0

def GovPmt.plc_payment_rate_bl (g : GovPmt) (cp : Crop) : ℚ :=
  min (g.plc_payment_rate1_bl cp) (g.max_plc_payment_rate cp)

def GovPmt.plc_pmt_pre_sequest_bl (g : GovPmt) (cp : Crop) : ℚ :=
  g.plc_payment_rate_bl cp * g.net_payment_acres cp * g.farm_plc_yield cp

def GovPmt.actual_crop_revenue_bl (g : GovPmt) (cp : Crop) : ℚ :=
  max (g.assumed_mya_price_bl cp) (g.natl_loan_rate cp) * g.est_county_yield cp

def GovPmt.revenue_shortfall_bl (g : GovPmt) (cp : Crop) : ℚ :=
  max 0 (g.arc_guar_revenue cp - g.actual_crop_revenue_bl cp)

def GovPmt.arc_pmt_rate_bl (g : GovPmt) (cp : Crop) : ℚ :=
  min (g.arc_capped_bmk_revenue cp) (g.revenue_shortfall_bl cp)

def GovPmt.arc_pmt_pre_sequest_bl (g : GovPmt) (cp : Crop) : ℚ :=
  g.net_payment_acres cp * g.arc_pmt_rate_bl cp

def GovPmt.prog_pmt_pre_sequest_crop_bl (g : GovPmt) (cp : Crop) : ℚ :=
  if g.program cp = GovPmt.ARC_CO then g.arc_pmt_pre_sequest_bl cp
  else g.plc_pmt_pre_sequest_bl cp

def GovPmt.prog_pmt_pre_sequest_bl (g : GovPmt) : ℚ :=
  g.prog_pmt_pre_sequest_crop_bl Crop.corn + g.prog_pmt_pre_sequest_crop_bl Crop.soy +
    g.prog_pmt_pre_sequest_crop_bl Crop.wheat

def GovPmt.prog_pmt_post_sequest_bl (g : GovPmt) : ℚ :=
  g.prog_pmt_pre_sequest_bl * (1 - g.sequest_frac)

def GovPmt.total_gov_pmt_bl (g : GovPmt) : ℤ :=
  pyRound (min g.prog_pmt_post_sequest_bl g.fsa_pmt_cap)

/-
The specification's own wording of the PLC payment formulas (section 4.4),
written out from raw facts, to compare with the source definitions.
-/

/-- Spec wording: raw payment rate = max(effective_ref_rate - effective_price, 0),
capped at statutory_ref_rate - national_loan_rate, with the effective price and
effective reference rate expanded per the spec. -/
def GovPmt.plc_payment_rate_spec (g : GovPmt) (cp : Crop) (pf : ℚ) : ℚ :=
  min
    (max
      (max (g.stat_ref_rate_farm_bill cp)
        (min (g.stat_ref_rate_new_escal cp)
          (g.rate_cap_factor_new_escal * g.stat_ref_rate_farm_bill cp)) -
        max (g.natl_loan_rate cp)
          (g.fut_price cp * pf - g.decrement_from_futures_to_mya cp))
      0)
    (g.stat_ref_rate_farm_bill cp - g.natl_loan_rate cp)

/-- Spec wording: payment = payment_rate x net_payment_acres x
(farm_plc_bushels / farm_base_acres), net_payment_acres =
base_to_payment_fraction x farm_base_acres. -/
def GovPmt.plc_pmt_pre_sequest_spec (g : GovPmt) (cp : Crop) (pf : ℚ) : ℚ :=
  g.plc_payment_rate_spec cp pf *
    (g.base_to_net_pmt_frac * g.farm_base_acres cp) *
    (g.farm_plc_bu cp / g.farm_base_acres cp)

/-
Concrete fact sets used as inputs for counterexamples and witnesses.
-/

/-- A fact set in which every fact the claims require to be positive is
positive, but so small that no rounded subtotal moves under a 10 percent
yield increase. -/
def cexCost : Cost where
  acres_corn := 1
  acres_soy := 1
  acres_wheat_dc_soy := 1/2
  proj_yield_farm_corn := 1
  proj_yield_farm_dc_soy := 1
  proj_yield_farm_full_soy := 1
  proj_yield_farm_wheat := 1
  dap_corn := 1/10
  dap_soy := 1/10
  repl_potash_corn := 1/10
  repl_potash_soy := 1/10
  cur_est_fertiilizer_cost_corn := 1/10
  cur_est_fertiilizer_cost_soy := 1/10
  incremental_wheat_cost_base := 1/10
  wheat_hauling_base := 1/10
  clear_gpa_2018 := 1/10
  clear_diesel_price := 1/10
  dyed_gpa_2018 := 1/10
  dyed_diesel_price := 1/10
  fuel_alloc_corn := 1/10
  fuel_alloc_soy := 1/10
  est_haul_alloc := 1/10
  yield_2018_corn := 1
  yield_2018_soy := 1
  gas_electric_corn := 1/10
  gas_electric_soy := 1/10
  seed_plus_treatment_corn := 0
  seed_plus_treatment_soy := 0
  chemicals_corn := 0
  chemicals_soy := 0
  wind_peril_premium_corn := 0
  wind_peril_premium_soy := 0
  minus_wind_peril_indemnity_corn := 0
  minus_wind_peril_indemnity_soy := 0
  est_payroll := 1/10
  payroll_alloc_corn := 1/10
  payroll_alloc_soy := 1/10
  payroll_pct_ot := 1/10
  replacement_capital_corn := 0
  replacement_capital_soy := 0
  building_equip_repairs_corn := 0
  building_equip_repairs_soy := 0
  shop_tools_supplies_parts_corn := 0
  shop_tools_supplies_parts_soy := 0
  business_insurance_corn := 0
  business_insurance_soy := 0
  other_utilities_corn := 0
  other_utilities_soy := 0
  professional_fees_corn := 0
  professional_fees_soy := 0
  other_operating_expense_corn := 0
  other_operating_expense_soy := 0
  total_land_expenses_corn := 0
  total_land_expenses_soy := 0

/-- A fact set whose corn fertilizer estimate sits exactly on a half-dollar
tie, exposing the banker's-rounding discrepancy in the baseline identity. -/
def tieCost : Cost :=
  { cexCost with
    cur_est_fertiilizer_cost_corn := 7/2
    dap_corn := 1
    repl_potash_corn := 0 }

def exRevenue : Revenue where
  acres_corn := 1
  proj_yield_farm_corn := 1
  est_shrink_corn := 0
  acres_wheat_dc_soy := 1/2
  proj_yield_farm_dc_soy := 1
  acres_soy := 1
  proj_yield_farm_full_soy := 1
  est_shrink_soy := 0
  contract_bu_corn := 1
  contract_bu_soy := 1
  fall_futures_price_corn := 1
  fall_futures_price_soy := 1
  est_basis_corn := 0
  est_basis_soy := 0
  est_deduct_corn := 0
  est_deduct_soy := 0
  avg_contract_price_corn := 1
  avg_contract_price_soy := 1
  revenue_wheat := 1
  ppp_loan_forgive_corn := 0
  ppp_loan_forgive_soy := 0
  mfp_cfap_corn := 0
  mfp_cfap_soy := 0
  rental_revenue_corn := 0
  rental_revenue_soy := 0
  other_revenue_corn := 0
  other_revenue_soy := 0

/-- A PLC-selecting fact set whose per-crop PLC payment is 1, so the
pre-sequestration total is 3. -/
def exGov : GovPmt where
  fut_price_corn := 1
  fut_price_soy := 1
  fut_price_wheat := 1
  decrement_from_futures_to_mya_corn := 0
  decrement_from_futures_to_mya_soy := 0
  decrement_from_futures_to_mya_wheat := 0
  farm_base_acres_corn := 1
  farm_base_acres_soy := 1
  farm_base_acres_wheat := 1
  natl_loan_rate_corn := 1
  natl_loan_rate_soy := 1
  natl_loan_rate_wheat := 1
  stat_ref_rate_farm_bill_corn := 2
  stat_ref_rate_farm_bill_soy := 2
  stat_ref_rate_farm_bill_wheat := 2
  stat_ref_rate_new_escal_corn := 2
  stat_ref_rate_new_escal_soy := 2
  stat_ref_rate_new_escal_wheat := 2
  farm_plc_bu_corn := 1
  farm_plc_bu_soy := 1
  farm_plc_bu_wheat := 1
  arc_price_corn := 1
  arc_price_soy := 1
  arc_price_wheat := 1
  arc_yield_corn := 1
  arc_yield_soy := 1
  arc_yield_wheat := 1
  est_county_yield_corn := 1
  est_county_yield_soy := 1
  est_county_yield_wheat := 1
  program_corn := 1
  program_soy := 1
  program_wheat := 1
  base_to_net_pmt_frac := 1
  rate_cap_factor_new_escal := 1
  cap_on_bmk_cty_rev := 1/10
  guar_rev_frac := 86/100
  sequest_frac := 0
  fsa_pmt_cap := 125000

/-- exGov with a fractional configured payment cap. -/
def capGov : GovPmt :=
  { exGov with fsa_pmt_cap := 3/5 }

/-
Rounding lemmas.
-/

theorem pyRound_intCast (n : ℤ) : pyRound (n : ℚ) = n := by
  unfold pyRound
  rw [Int.floor_intCast]
  norm_num

theorem pyRound_mono {p q : ℚ} (h : p ≤ q) : pyRound p ≤ pyRound q := by
  unfold pyRound
  have hf : ⌊p⌋ ≤ ⌊q⌋ := Int.floor_mono h
  rcases eq_or_lt_of_le hf with heq | hlt
  · have hfr : p - (⌊p⌋ : ℚ) ≤ q - (⌊q⌋ : ℚ) := by
      rw [heq]
      have : ((⌊q⌋ : ℚ)) = ((⌊q⌋ : ℚ)) := rfl
      linarith [sub_le_sub_right h ((⌊q⌋ : ℚ))]
    split_ifs <;> first | omega | (exfalso; linarith)
  · split_ifs <;> omega

theorem pyRound_sub_intCast (q : ℚ) (n : ℤ) (h : q - (⌊q⌋ : ℚ) ≠ 1/2) :
    pyRound (q - (n : ℚ)) = pyRound q - n := by
  unfold pyRound
  have hfl : ⌊q - (n : ℚ)⌋ = ⌊q⌋ - n := Int.floor_sub_int q n
  rw [hfl]
  have harg : q - (n : ℚ) - ((⌊q⌋ - n : ℤ) : ℚ) = q - (⌊q⌋ : ℚ) := by
    push_cast; ring
  rw [harg]
  rcases lt_trichotomy (q - (⌊q⌋ : ℚ)) (1/2) with hlt | heq | hgt
  · rw [if_pos hlt, if_pos hlt]
  · exact absurd heq h
  · rw [if_neg (by linarith), if_pos hgt, if_neg (by linarith), if_pos hgt]
    omega

theorem pyRound_le_intCast {q : ℚ} {n : ℤ} (h : q ≤ (n : ℚ)) : pyRound q ≤ n := by
  have := pyRound_mono h
  rwa [pyRound_intCast] at this

/-
Loading-order lemmas.
-/

theorem applyPairsFrom_eq (pairs : List (String × ℚ)) :
    ∀ (m : String → Option ℚ) (k : String),
      applyPairsFrom m pairs k = (applyPairs pairs k).elim (m k) some := by
  induction pairs with
  | nil => intro m k; rfl
  | cons a t ih =>
    intro m k
    have h1 : applyPairsFrom m (a :: t) k = applyPairsFrom (setStep m a) t k := rfl
    have h2 : applyPairs (a :: t) k =
        (applyPairs t k).elim (setStep (fun _ => none) a k) some := by
      have h3 : applyPairs (a :: t) k = applyPairsFrom (setStep (fun _ => none) a) t k := rfl
      rw [h3, ih]
    rw [h1, ih, h2]
    cases applyPairs t k with
    | none =>
      simp only [Option.elim, setStep]
      by_cases hk : k = a.1
      · rw [if_pos hk, if_pos hk]
      · rw [if_neg hk, if_neg hk]
    | some v => rfl

theorem load_required_data_eq (farm domain : List (String × ℚ)) (k : String) :
    load_required_data farm domain k = (applyPairs domain k).elim (applyPairs farm k) some := by
  have h : load_required_data farm domain k = applyPairsFrom (applyPairs farm) domain k := by
    unfold load_required_data applyPairs applyPairsFrom
    rw [List.foldl_append]
  rw [h, applyPairsFrom_eq]

/-- Claim C2 (amended): when the farm-wide source and the domain source both
define a fact name, the setattr loading loop binds the farm value first and
then rebinds the name to the domain value, so the constructed engine keeps
the later domain source's value; the farm value survives only for names the
domain source does not define. -/
theorem load_required_data_last_wins (farm domain : List (String × ℚ)) (k : String) :
    (∀ v : ℚ, applyPairs domain k = some v → load_required_data farm domain k = some v) ∧
    (applyPairs domain k = none → load_required_data farm domain k = applyPairs farm k) := by
  constructor
  · intro v hv
    rw [load_required_data_eq, hv]
    rfl
  · intro hn
    rw [load_required_data_eq, hn]
    rfl

theorem load_required_data_last_wins_witness :
    load_required_data [("fsa_pmt_cap", (1 : ℚ))]
      [("fsa_pmt_cap", (2 : ℚ)), ("sequest_frac", (0 : ℚ))] "fsa_pmt_cap" = some 2 :=
  (load_required_data_last_wins _ _ _).1 2 rfl

/-- Claim C2 counterexample: a fact duplicated across the farm source (value 1)
and the domain source (value 2) ends up with the domain value 2 on the engine,
so the farm value is NOT retained. -/
theorem domain_source_overwrites_farm_value :
    load_required_data [("fsa_pmt_cap", (1 : ℚ))] [("fsa_pmt_cap", (2 : ℚ))] "fsa_pmt_cap" =
      some 2 ∧ some (2 : ℚ) ≠ some (1 : ℚ) := by
  refine ⟨rfl, ?_⟩
  intro h
  exact absurd (Option.some.inj h) (by norm_num)

/-
Claim C1: the payment cap bound.
-/

/-- Claim C1 (amended): total_gov_pmt = round(min(post-sequestration payment,
fsa_pmt_cap)) never exceeds the configured cap provided the configured
fsa_pmt_cap is a whole-dollar (integer) value; for a fractional cap the final
rounding can land up to half a dollar above the cap. -/
theorem total_gov_pmt_le_cap_of_int_cap (g : GovPmt) (pf yf : ℚ)
    (hcap : ∃ n : ℤ, g.fsa_pmt_cap = (n : ℚ)) :
    (GovPmt.total_gov_pmt g pf yf : ℚ) ≤ g.fsa_pmt_cap := by
  obtain ⟨n, hn⟩ := hcap
  have h1 : min (g.prog_pmt_post_sequest pf yf) g.fsa_pmt_cap ≤ (n : ℚ) := by
    rw [← hn]
    exact min_le_right _ _
  have h2 : GovPmt.total_gov_pmt g pf yf ≤ n := pyRound_le_intCast h1
  rw [hn]
  exact_mod_cast h2

theorem total_gov_pmt_le_cap_witness :
    (GovPmt.total_gov_pmt exGov 1 1 : ℚ) ≤ exGov.fsa_pmt_cap :=
  total_gov_pmt_le_cap_of_int_cap exGov 1 1 ⟨125000, rfl⟩

/-- Claim C1 counterexample: with a configured cap of 3/5 of a dollar and a
post-sequestration payment above it, total_gov_pmt rounds min(payment, cap)
to the whole dollar 1, which strictly exceeds the configured cap. -/
theorem total_gov_pmt_can_exceed_fractional_cap :
    capGov.fsa_pmt_cap < (GovPmt.total_gov_pmt capGov 1 1 : ℚ) := by
  have hcap : capGov.fsa_pmt_cap = 3/5 := rfl
  have h : GovPmt.total_gov_pmt capGov 1 1 = 1 := by with_unfolding_all rfl
  rw [hcap, h]
  norm_num

/-
Claim C5: contracted revenue carries no price or yield sensitivity.
-/

/-- Claim C5: for each of corn and soy, revenue_contracted_crop equals
round(contract_bu x avg_contract_price x (1 - est_deduct/100)); the
contracted total ignores its price-factor parameter, and the contracted
component contributed to total_revenue (everything except the uncontracted
part) is identical across any two price factors. -/
theorem contracted_revenue_price_insensitive (r : Revenue) (pf1 pf2 yf : ℚ) :
    Revenue.revenue_contracted_crop r CS.corn =
      pyRound (r.contract_bu_corn * r.avg_contract_price_corn *
        (1 - r.est_deduct_corn / 100)) ∧
    Revenue.revenue_contracted_crop r CS.soy =
      pyRound (r.contract_bu_soy * r.avg_contract_price_soy *
        (1 - r.est_deduct_soy / 100)) ∧
    Revenue.revenue_contracted r pf1 = Revenue.revenue_contracted r pf2 ∧
    Revenue.total_revenue r pf1 yf - (Revenue.revenue_uncontracted r pf1 yf : ℚ) =
      Revenue.total_revenue r pf2 yf - (Revenue.revenue_uncontracted r pf2 yf : ℚ) := by
  refine ⟨rfl, rfl, rfl, ?_⟩
  unfold Revenue.total_revenue
  ring

/-
Claim C6: the PLC formulas match the specification's wording.
-/

/-- Claim C6: for a crop configured to PLC, the PLC payment rate is
min(max(effective_ref_rate - effective_price(pf), 0), statutory rate -
loan rate), net payment acres is base_to_payment_fraction x farm_base_acres,
and the pre-sequestration program payment is rate x net_payment_acres x
(farm_plc_bushels / farm_base_acres), spelled out from raw facts exactly as
the spec words them. -/
theorem plc_payment_matches_spec_formula (g : GovPmt) (cp : Crop) (pf yf : ℚ)
    (h : g.program cp = GovPmt.PLC) :
    GovPmt.plc_payment_rate g cp pf = GovPmt.plc_payment_rate_spec g cp pf ∧
    GovPmt.net_payment_acres g cp = g.base_to_net_pmt_frac * g.farm_base_acres cp ∧
    GovPmt.prog_pmt_pre_sequest_crop g cp pf yf =
      GovPmt.plc_payment_rate_spec g cp pf *
        (g.base_to_net_pmt_frac * g.farm_base_acres cp) *
        (g.farm_plc_bu cp / g.farm_base_acres cp) := by
  have hne : g.program cp ≠ GovPmt.ARC_CO := by
    rw [h]
    unfold GovPmt.PLC GovPmt.ARC_CO
    norm_num
  refine ⟨rfl, rfl, ?_⟩
  unfold GovPmt.prog_pmt_pre_sequest_crop
  rw [if_neg hne]
  rfl

theorem plc_payment_spec_witness :
    GovPmt.prog_pmt_pre_sequest_crop exGov Crop.corn 1 1 =
      GovPmt.plc_payment_rate_spec exGov Crop.corn 1 *
        (exGov.base_to_net_pmt_frac * exGov.farm_base_acres Crop.corn) *
        (exGov.farm_plc_bu Crop.corn / exGov.farm_base_acres Crop.corn) :=
  (plc_payment_matches_spec_formula exGov Crop.corn 1 1 rfl).2.2

/-
Claim C7: switching one crop's program is frame-local.
-/

/-- Claim C7: switching one crop's program selector from PLC to ARC-CO leaves
every other crop's pre-sequestration payment term unchanged for all factors,
and hence changes the pre-sequestration total only through the switched
crop's own term. -/
theorem program_switch_frame (g : GovPmt) (cp cp2 : Crop) (pf yf : ℚ)
    (hplc : g.program cp = GovPmt.PLC) (hne : cp2 ≠ cp) :
    GovPmt.prog_pmt_pre_sequest_crop (g.setProgram cp GovPmt.ARC_CO) cp2 pf yf =
      GovPmt.prog_pmt_pre_sequest_crop g cp2 pf yf ∧
    GovPmt.prog_pmt_pre_sequest (g.setProgram cp GovPmt.ARC_CO) pf yf -
        GovPmt.prog_pmt_pre_sequest_crop (g.setProgram cp GovPmt.ARC_CO) cp pf yf =
      GovPmt.prog_pmt_pre_sequest g pf yf -
        GovPmt.prog_pmt_pre_sequest_crop g cp pf yf := by
  have hframe : ∀ cq : Crop, cq ≠ cp →
      GovPmt.prog_pmt_pre_sequest_crop (g.setProgram cp GovPmt.ARC_CO) cq pf yf =
        GovPmt.prog_pmt_pre_sequest_crop g cq pf yf := by
    intro cq hq
    cases cp <;> cases cq <;> first
      | exact absurd rfl hq
      | rfl
  refine ⟨hframe cp2 hne, ?_⟩
  unfold GovPmt.prog_pmt_pre_sequest
  cases cp with
  | corn =>
    rw [hframe Crop.soy (by intro hc; cases hc), hframe Crop.wheat (by intro hc; cases hc)]
    ring
  | soy =>
    rw [hframe Crop.corn (by intro hc; cases hc), hframe Crop.wheat (by intro hc; cases hc)]
    ring
  | wheat =>
    rw [hframe Crop.corn (by intro hc; cases hc), hframe Crop.soy (by intro hc; cases hc)]
    ring

theorem program_switch_frame_witness :
    GovPmt.prog_pmt_pre_sequest_crop (exGov.setProgram Crop.corn GovPmt.ARC_CO)
        Crop.soy 1 1 =
      GovPmt.prog_pmt_pre_sequest_crop exGov Crop.soy 1 1 :=
  (program_switch_frame exGov Crop.corn Crop.soy 1 1 rfl (by intro hc; cases hc)).1

/-
Claim C8: invalid crops are rejected before any fact is read.
-/

/-- Claim C8: each operation with a restricted crop set rejects any crop
name outside that set with the invalid-crop error, for every possible fact
set (so the rejection cannot depend on reading any fact): corn/soy-only
operations reject anything but corn and soy ("wheat" included), and the
three-crop totals reject anything outside corn, soy, wheat. -/
theorem invalid_crop_error_synchronous (c : Cost) (r : Revenue) (pf yf : ℚ)
    (s t : String) (hs1 : s ≠ "corn") (hs2 : s ≠ "soy")
    (ht1 : t ≠ "corn") (ht2 : t ≠ "soy") (ht3 : t ≠ "wheat") :
    Cost.total_fert_crop_checked c s yf = Except.error CropError.invalidCrop ∧
    Cost.diesel_cost_crop_checked c s yf = Except.error CropError.invalidCrop ∧
    Cost.gas_electric_cost_crop_checked c s yf = Except.error CropError.invalidCrop ∧
    Cost.payroll_crop_checked c s yf = Except.error CropError.invalidCrop ∧
    Cost.total_overhead_crop_checked c s yf = Except.error CropError.invalidCrop ∧
    Revenue.total_revenue_crop_checked r t pf yf = Except.error CropError.invalidCrop ∧
    Cost.total_variable_cost_crop_checked c t yf = Except.error CropError.invalidCrop := by
  have hcs : parseCS s = none := by
    unfold parseCS
    rw [if_neg hs1, if_neg hs2]
  have hcrop : parseCrop t = none := by
    unfold parseCrop
    rw [if_neg ht1, if_neg ht2, if_neg ht3]
  refine ⟨?_, ?_, ?_, ?_, ?_, ?_, ?_⟩
  · unfold Cost.total_fert_crop_checked
    rw [hcs]
  · unfold Cost.diesel_cost_crop_checked
    rw [hcs]
  · unfold Cost.gas_electric_cost_crop_checked
    rw [hcs]
  · unfold Cost.payroll_crop_checked
    rw [hcs]
  · unfold Cost.total_overhead_crop_checked
    rw [hcs]
  · unfold Revenue.total_revenue_crop_checked
    rw [hcrop]
  · unfold Cost.total_variable_cost_crop_checked
    rw [hcrop]

theorem invalid_crop_error_witness :
    Cost.total_fert_crop_checked cexCost "wheat" 1 = Except.error CropError.invalidCrop ∧
    Revenue.total_revenue_crop_checked exRevenue "barley" 1 1 =
      Except.error CropError.invalidCrop := by
  have h := invalid_crop_error_synchronous cexCost exRevenue 1 1 "wheat" "barley"
    (by decide) (by decide) (by decide) (by decide) (by decide)
  exact ⟨h.1, h.2.2.2.2.2.1⟩

/-
Claim C9: the two soy-blend implementations agree.
-/

/-- Claim C9: given the same four facts, the blended soy projected yield of
the cost engine equals the one the revenue engine derives from its estimated
soy bushels: the two independent implementations agree. -/
theorem soy_blend_equivalence (c : Cost) (r : Revenue)
    (h1 : c.acres_wheat_dc_soy = r.acres_wheat_dc_soy)
    (h2 : c.proj_yield_farm_dc_soy = r.proj_yield_farm_dc_soy)
    (h3 : c.acres_soy = r.acres_soy)
    (h4 : c.proj_yield_farm_full_soy = r.proj_yield_farm_full_soy) :
    Cost.proj_yield_farm_crop c Crop.soy = Revenue.projected_yield_soy r := by
  unfold Cost.proj_yield_farm_crop Revenue.projected_yield_soy Revenue.estimated_soy_bushels
  rw [h1, h2, h3, h4]

theorem soy_blend_equivalence_witness :
    Cost.proj_yield_farm_crop cexCost Crop.soy = Revenue.projected_yield_soy exRevenue :=
  soy_blend_equivalence cexCost exRevenue rfl rfl rfl rfl

/-
Claim C10: all-PLC configurations are yield-factor independent.
-/

/-- Claim C10: when all three program selectors are PLC, total_gov_pmt does
not depend on the yield factor, because the PLC branch never reads it. -/
theorem all_plc_total_independent_of_yield (g : GovPmt) (pf yf1 yf2 : ℚ)
    (h1 : g.program_corn = GovPmt.PLC) (h2 : g.program_soy = GovPmt.PLC)
    (h3 : g.program_wheat = GovPmt.PLC) :
    GovPmt.total_gov_pmt g pf yf1 = GovPmt.total_gov_pmt g pf yf2 := by
  have hne : (GovPmt.PLC : ℚ) ≠ GovPmt.ARC_CO := by
    unfold GovPmt.PLC GovPmt.ARC_CO
    norm_num
  have hcrop : ∀ (cp : Crop) (yf : ℚ),
      g.prog_pmt_pre_sequest_crop cp pf yf = g.plc_pmt_pre_sequest cp pf := by
    intro cp yf
    unfold GovPmt.prog_pmt_pre_sequest_crop
    have hp : g.program cp = GovPmt.PLC := by
      cases cp
      · exact h1
      · exact h2
      · exact h3
    rw [if_neg (hp ▸ hne)]
  unfold GovPmt.total_gov_pmt GovPmt.prog_pmt_post_sequest GovPmt.prog_pmt_pre_sequest
  rw [hcrop Crop.corn yf1, hcrop Crop.soy yf1, hcrop Crop.wheat yf1,
    hcrop Crop.corn yf2, hcrop Crop.soy yf2, hcrop Crop.wheat yf2]

theorem all_plc_yield_independent_witness :
    GovPmt.total_gov_pmt exGov 1 1 = GovPmt.total_gov_pmt exGov 1 2 :=
  all_plc_total_independent_of_yield exGov 1 1 2 rfl rfl rfl

/-
Claim C4: a factor of 1.0 reproduces the factor-free baseline.
-/

theorem total_cost_at_one (c : Cost) : Cost.total_cost c 1 = Cost.total_cost_bl c := by
  have hydf : ∀ cp : CS, c.yield_dep_repl_fert_crop cp 1 = c.yield_dep_repl_fert_crop_bl cp := by
    intro cp
    unfold Cost.yield_dep_repl_fert_crop Cost.yield_dep_repl_fert_crop_bl
    rw [mul_one]
  have hindep : ∀ cp : CS,
      c.yield_indep_repl_fert_crop cp = c.yield_indep_repl_fert_crop_bl cp := by
    intro cp
    unfold Cost.yield_indep_repl_fert_crop Cost.yield_indep_repl_fert_crop_bl
    rw [hydf cp]
  have hfert : ∀ cp : CS, c.total_fert_crop cp 1 = c.total_fert_crop_bl cp := by
    intro cp
    unfold Cost.total_fert_crop Cost.total_fert_crop_bl
    rw [hydf cp, hindep cp]
  have hwheat : c.incremental_wheat_cost 1 = c.incremental_wheat_cost_bl := by
    unfold Cost.incremental_wheat_cost Cost.incremental_wheat_cost_bl
    refine congrArg pyRound ?_
    ring
  have hclear : ∀ cp : CS, c.clear_diesel_cost_crop cp 1 = c.clear_diesel_cost_crop_bl cp := by
    intro cp
    unfold Cost.clear_diesel_cost_crop Cost.clear_diesel_cost_crop_bl
    rw [mul_one]
  have hdiesel : ∀ cp : CS, c.diesel_cost_crop cp 1 = c.diesel_cost_crop_bl cp := by
    intro cp
    unfold Cost.diesel_cost_crop Cost.diesel_cost_crop_bl
    rw [hclear cp]
  have hgas : ∀ cp : CS, c.gas_electric_cost_crop cp 1 = c.gas_electric_cost_crop_bl cp := by
    intro cp
    unfold Cost.gas_electric_cost_crop Cost.gas_electric_cost_crop_bl
    rw [mul_one]
  have hpay : ∀ cp : CS, c.payroll_crop cp 1 = c.payroll_crop_bl cp := by
    intro cp
    unfold Cost.payroll_crop Cost.payroll_crop_bl
    rw [mul_one]
  have hvar : ∀ cp : CS, c.cs_variable_cost cp 1 = c.cs_variable_cost_bl cp := by
    intro cp
    unfold Cost.cs_variable_cost Cost.cs_variable_cost_bl
    rw [hfert cp, hdiesel cp, hgas cp]
  have hover : ∀ cp : CS, c.total_overhead_crop cp 1 = c.total_overhead_crop_bl cp := by
    intro cp
    unfold Cost.total_overhead_crop Cost.total_overhead_crop_bl
    rw [hpay cp]
  simp only [Cost.total_cost, Cost.total_cost_bl, Cost.total_variable_cost,
    Cost.total_variable_cost_bl, Cost.total_variable_cost_crop,
    Cost.total_variable_cost_crop_bl, Cost.total_overhead, Cost.total_overhead_bl,
    hvar CS.corn, hvar CS.soy, hwheat, hover CS.corn, hover CS.soy]

theorem total_revenue_at_one (r : Revenue) :
    Revenue.total_revenue r 1 1 = Revenue.total_revenue_bl r := by
  have hc : r.deliverable_bu_corn 1 = r.deliverable_bu_corn_bl := by
    unfold Revenue.deliverable_bu_corn Revenue.deliverable_bu_corn_bl
    rw [mul_one]
  have hsoy : r.deliverable_bu_soy 1 = r.deliverable_bu_soy_bl := by
    unfold Revenue.deliverable_bu_soy Revenue.deliverable_bu_soy_bl
    rw [mul_one]
  have hun : ∀ cp : CS,
      r.revenue_uncontracted_crop cp 1 1 = r.revenue_uncontracted_crop_bl cp := by
    intro cp
    cases cp with
    | corn =>
      simp only [Revenue.revenue_uncontracted_crop, Revenue.revenue_uncontracted_crop_bl]
      rw [hc, mul_one]
    | soy =>
      simp only [Revenue.revenue_uncontracted_crop, Revenue.revenue_uncontracted_crop_bl]
      rw [hsoy, mul_one]
  unfold Revenue.total_revenue Revenue.total_revenue_bl Revenue.revenue_uncontracted
    Revenue.revenue_uncontracted_bl
  rw [hun CS.corn, hun CS.soy]

theorem total_gov_pmt_at_one (g : GovPmt) :
    GovPmt.total_gov_pmt g 1 1 = GovPmt.total_gov_pmt_bl g := by
  have hmya : ∀ cp : Crop, g.assumed_mya_price cp 1 = g.assumed_mya_price_bl cp := by
    intro cp
    unfold GovPmt.assumed_mya_price GovPmt.assumed_mya_price_bl
    rw [mul_one]
  have heffp : ∀ cp : Crop, g.effective_price cp 1 = g.effective_price_bl cp := by
    intro cp
    unfold GovPmt.effective_price GovPmt.effective_price_bl
    rw [hmya cp]
  have hrate1 : ∀ cp : Crop, g.plc_payment_rate1 cp 1 = g.plc_payment_rate1_bl cp := by
    intro cp
    unfold GovPmt.plc_payment_rate1 GovPmt.plc_payment_rate1_bl
    rw [heffp cp]
  have hrate : ∀ cp : Crop, g.plc_payment_rate cp 1 = g.plc_payment_rate_bl cp := by
    intro cp
    unfold GovPmt.plc_payment_rate GovPmt.plc_payment_rate_bl
    rw [hrate1 cp]
  have hplc : ∀ cp : Crop, g.plc_pmt_pre_sequest cp 1 = g.plc_pmt_pre_sequest_bl cp := by
    intro cp
    unfold GovPmt.plc_pmt_pre_sequest GovPmt.plc_pmt_pre_sequest_bl
    rw [hrate cp]
  have hcounty : ∀ cp : Crop, g.county_rma_yield cp 1 = g.est_county_yield cp := by
    intro cp
    unfold GovPmt.county_rma_yield
    rw [mul_one]
  have hact : ∀ cp : Crop, g.actual_crop_revenue cp 1 1 = g.actual_crop_revenue_bl cp := by
    intro cp
    unfold GovPmt.actual_crop_revenue GovPmt.actual_crop_revenue_bl
    rw [hmya cp, hcounty cp]
  have hshort : ∀ cp : Crop, g.revenue_shortfall cp 1 1 = g.revenue_shortfall_bl cp := by
    intro cp
    unfold GovPmt.revenue_shortfall GovPmt.revenue_shortfall_bl
    rw [hact cp]
  have harcrate : ∀ cp : Crop, g.arc_pmt_rate cp 1 1 = g.arc_pmt_rate_bl cp := by
    intro cp
    unfold GovPmt.arc_pmt_rate GovPmt.arc_pmt_rate_bl
    rw [hshort cp]
  have harc : ∀ cp : Crop, g.arc_pmt_pre_sequest cp 1 1 = g.arc_pmt_pre_sequest_bl cp := by
    intro cp
    unfold GovPmt.arc_pmt_pre_sequest GovPmt.arc_pmt_pre_sequest_bl
    rw [harcrate cp]
  have hcrop : ∀ cp : Crop,
      g.prog_pmt_pre_sequest_crop cp 1 1 = g.prog_pmt_pre_sequest_crop_bl cp := by
    intro cp
    unfold GovPmt.prog_pmt_pre_sequest_crop GovPmt.prog_pmt_pre_sequest_crop_bl
    by_cases hp : g.program cp = GovPmt.ARC_CO
    · rw [if_pos hp, if_pos hp, harc cp]
    · rw [if_neg hp, if_neg hp, hplc cp]
  unfold GovPmt.total_gov_pmt GovPmt.total_gov_pmt_bl GovPmt.prog_pmt_post_sequest
    GovPmt.prog_pmt_post_sequest_bl GovPmt.prog_pmt_pre_sequest
    GovPmt.prog_pmt_pre_sequest_bl
  rw [hcrop Crop.corn, hcrop Crop.soy, hcrop Crop.wheat]

/-- Claim C4 (amended): all sensitivity factors at 1.0 reproduce the
factor-free baselines derived from the loaded facts, and for each of corn
and soy the total fertilizer cost at yield_factor 1 equals the baseline
current estimated fertilizer cost fact rounded to the nearest dollar,
provided that fact's fractional part is not exactly one half (at an exact
half-dollar tie, banker's rounding of baseline-minus-integer can differ by
one dollar from the rounded baseline). -/
theorem factor_one_reproduces_baseline (c : Cost) (r : Revenue) (g : GovPmt)
    (hc : c.cur_est_fertiilizer_cost_corn -
      ((⌊c.cur_est_fertiilizer_cost_corn⌋ : ℤ) : ℚ) ≠ 1/2)
    (hs : c.cur_est_fertiilizer_cost_soy -
      ((⌊c.cur_est_fertiilizer_cost_soy⌋ : ℤ) : ℚ) ≠ 1/2) :
    Cost.total_cost c 1 = Cost.total_cost_bl c ∧
    Revenue.total_revenue r 1 1 = Revenue.total_revenue_bl r ∧
    GovPmt.total_gov_pmt g 1 1 = GovPmt.total_gov_pmt_bl g ∧
    Cost.total_fert_crop c CS.corn 1 = pyRound c.cur_est_fertiilizer_cost_corn ∧
    Cost.total_fert_crop c CS.soy 1 = pyRound c.cur_est_fertiilizer_cost_soy := by
  have hfert : ∀ cp : CS,
      c.cur_est_fertiilizer_cost cp - ((⌊c.cur_est_fertiilizer_cost cp⌋ : ℤ) : ℚ) ≠ 1/2 →
      c.total_fert_crop cp 1 = pyRound (c.cur_est_fertiilizer_cost cp) := by
    intro cp hcp
    unfold Cost.total_fert_crop Cost.yield_indep_repl_fert_crop
    rw [pyRound_sub_intCast _ _ hcp]
    omega
  exact ⟨total_cost_at_one c, total_revenue_at_one r, total_gov_pmt_at_one g,
    hfert CS.corn hc, hfert CS.soy hs⟩

theorem factor_one_baseline_witness :
    Cost.total_cost cexCost 1 = Cost.total_cost_bl cexCost ∧
    Revenue.total_revenue exRevenue 1 1 = Revenue.total_revenue_bl exRevenue ∧
    GovPmt.total_gov_pmt exGov 1 1 = GovPmt.total_gov_pmt_bl exGov ∧
    Cost.total_fert_crop cexCost CS.corn 1 =
      pyRound cexCost.cur_est_fertiilizer_cost_corn ∧
    Cost.total_fert_crop cexCost CS.soy 1 =
      pyRound cexCost.cur_est_fertiilizer_cost_soy := by
  refine factor_one_reproduces_baseline cexCost exRevenue exGov ?_ ?_
  · show (1/10 : ℚ) - ((⌊(1/10 : ℚ)⌋ : ℤ) : ℚ) ≠ 1/2
    have h : (⌊(1/10 : ℚ)⌋ : ℤ) = 0 := by with_unfolding_all rfl
    rw [h]
    norm_num
  · show (1/10 : ℚ) - ((⌊(1/10 : ℚ)⌋ : ℤ) : ℚ) ≠ 1/2
    have h : (⌊(1/10 : ℚ)⌋ : ℤ) = 0 := by with_unfolding_all rfl
    rw [h]
    norm_num

/-- Claim C4 counterexample: with cur_est_fertiilizer_cost_corn = 3.50 and a
yield-dependent part of 1 dollar, total fertilizer cost at yield_factor 1 is
round(3.5 - 1) + 1 = 2 + 1 = 3, while the rounded baseline fact is
round(3.5) = 4 under banker's rounding, so the claimed identity fails. -/
theorem total_fert_tie_breaks_baseline_identity :
    Cost.total_fert_crop tieCost CS.corn 1 ≠ pyRound tieCost.cur_est_fertiilizer_cost_corn := by
  have h1 : Cost.total_fert_crop tieCost CS.corn 1 = 3 := by with_unfolding_all rfl
  have h2 : pyRound tieCost.cur_est_fertiilizer_cost_corn = 4 := by with_unfolding_all rfl
  rw [h1, h2]
  omega

/-
Claim C3: yield-factor monotonicity of total cost.
-/

/-- Claim C3 (amended): with the yield-dependent facts (dap, repl_potash,
wheat hauling base, the fuel terms, the payroll terms and gas/electric)
positive, total_cost is monotone NON-strictly in the yield factor: a larger
yield factor never decreases total cost.  Strict increase fails in general
because every yield-dependent subtotal is rounded to whole dollars at the
point it is defined, so a small factor increase can leave every rounded
subtotal unchanged. -/
theorem total_cost_mono_in_yield_factor (c : Cost) (y1 y2 : ℚ)
    (hy : y1 ≤ y2)
    (hdc : 0 < c.dap_corn) (hpc : 0 < c.repl_potash_corn)
    (hds : 0 < c.dap_soy) (hps : 0 < c.repl_potash_soy)
    (hwh : 0 < c.wheat_hauling_base)
    (hgpa : 0 < c.clear_gpa_2018) (hac : 0 < c.acres_corn) (has2 : 0 < c.acres_soy)
    (hcdp : 0 < c.clear_diesel_price) (hfac : 0 < c.fuel_alloc_corn)
    (hfas : 0 < c.fuel_alloc_soy) (hha : 0 < c.est_haul_alloc)
    (hyc : 0 < c.yield_2018_corn) (hys : 0 < c.yield_2018_soy)
    (hpyc : 0 < c.proj_yield_farm_corn)
    (hdcs0 : 0 ≤ c.acres_wheat_dc_soy) (hdcs1 : c.acres_wheat_dc_soy ≤ c.acres_soy)
    (hpds : 0 < c.proj_yield_farm_dc_soy) (hpfs : 0 < c.proj_yield_farm_full_soy)
    (hep : 0 < c.est_payroll) (hpac : 0 < c.payroll_alloc_corn)
    (hpas : 0 < c.payroll_alloc_soy) (hpot : 0 < c.payroll_pct_ot)
    (hgec : 0 < c.gas_electric_corn) (hges : 0 < c.gas_electric_soy) :
    Cost.total_cost c y1 ≤ Cost.total_cost c y2 := by
  have hdp : ∀ cp : CS, 0 < c.dap cp + c.repl_potash cp := by
    intro cp
    cases cp <;> simp only [Cost.dap, Cost.repl_potash] <;> linarith
  have hacres : ∀ cp : CS, 0 < c.acres cp := by
    intro cp
    cases cp <;> simp only [Cost.acres] <;> assumption
  have hfa : ∀ cp : CS, 0 < c.fuel_alloc cp := by
    intro cp
    cases cp <;> simp only [Cost.fuel_alloc] <;> assumption
  have hy18 : ∀ cp : CS, 0 < c.yield_2018 cp := by
    intro cp
    cases cp <;> simp only [Cost.yield_2018] <;> assumption
  have hge : ∀ cp : CS, 0 < c.gas_electric cp := by
    intro cp
    cases cp <;> simp only [Cost.gas_electric] <;> assumption
  have hpal : ∀ cp : CS, 0 < c.payroll_alloc cp := by
    intro cp
    cases cp <;> simp only [Cost.payroll_alloc] <;> assumption
  have hpy : ∀ cp : CS, 0 ≤ c.proj_yield_farm_crop cp.toCrop := by
    intro cp
    cases cp with
    | corn =>
      simp only [CS.toCrop, Cost.proj_yield_farm_crop]
      exact hpyc.le
    | soy =>
      simp only [CS.toCrop, Cost.proj_yield_farm_crop]
      apply div_nonneg _ has2.le
      have h1 : 0 ≤ c.acres_wheat_dc_soy * c.proj_yield_farm_dc_soy :=
        mul_nonneg hdcs0 hpds.le
      have h2 : 0 ≤ (c.acres_soy - c.acres_wheat_dc_soy) * c.proj_yield_farm_full_soy :=
        mul_nonneg (by linarith) hpfs.le
      linarith
  have hydf : ∀ cp : CS, c.yield_dep_repl_fert_crop cp y1 ≤ c.yield_dep_repl_fert_crop cp y2 := by
    intro cp
    apply pyRound_mono
    exact mul_le_mul_of_nonneg_left hy (hdp cp).le
  have hfertm : ∀ cp : CS, c.total_fert_crop cp y1 ≤ c.total_fert_crop cp y2 := by
    intro cp
    unfold Cost.total_fert_crop
    exact add_le_add_left (hydf cp) _
  have hwheatm : c.incremental_wheat_cost y1 ≤ c.incremental_wheat_cost y2 := by
    apply pyRound_mono
    have h := mul_le_mul_of_nonneg_left (sub_le_sub_right hy 1) hwh.le
    linarith
  have hclearm : ∀ cp : CS,
      c.clear_diesel_cost_crop cp y1 ≤ c.clear_diesel_cost_crop cp y2 := by
    intro cp
    apply pyRound_mono
    have hB : 0 ≤ c.clear_diesel_base_cost_crop cp := by
      unfold Cost.clear_diesel_base_cost_crop
      exact (mul_pos (mul_pos (mul_pos hgpa (hacres cp)) hcdp) (hfa cp)).le
    have hK : 0 ≤ c.clear_diesel_base_cost_crop cp *
        (c.est_haul_alloc * (c.proj_yield_farm_crop cp.toCrop / c.yield_2018 cp)) :=
      mul_nonneg hB (mul_nonneg hha.le (div_nonneg (hpy cp) (hy18 cp).le))
    have hT := mul_nonneg hK (sub_nonneg.mpr hy)
    have h0 : c.clear_diesel_base_cost_crop cp *
          ((1 - c.est_haul_alloc) +
            c.est_haul_alloc * c.proj_yield_farm_crop cp.toCrop / c.yield_2018 cp * y1) -
        c.clear_diesel_base_cost_crop cp *
          ((1 - c.est_haul_alloc) +
            c.est_haul_alloc * c.proj_yield_farm_crop cp.toCrop / c.yield_2018 cp * y2) =
        -(c.clear_diesel_base_cost_crop cp *
          (c.est_haul_alloc * (c.proj_yield_farm_crop cp.toCrop / c.yield_2018 cp)) *
          (y2 - y1)) := by
      ring
    linarith
  have hdieselm : ∀ cp : CS, c.diesel_cost_crop cp y1 ≤ c.diesel_cost_crop cp y2 := by
    intro cp
    unfold Cost.diesel_cost_crop
    exact add_le_add_right (hclearm cp) _
  have hgasm : ∀ cp : CS,
      c.gas_electric_cost_crop cp y1 ≤ c.gas_electric_cost_crop cp y2 := by
    intro cp
    apply pyRound_mono
    exact mul_le_mul_of_nonneg_left hy (hge cp).le
  have hpaym : ∀ cp : CS, c.payroll_crop cp y1 ≤ c.payroll_crop cp y2 := by
    intro cp
    apply pyRound_mono
    have hK : 0 ≤ c.est_payroll * c.payroll_alloc cp *
        (c.payroll_pct_ot * (c.proj_yield_farm_crop cp.toCrop / c.yield_2018 cp)) :=
      mul_nonneg (mul_nonneg hep.le (hpal cp).le)
        (mul_nonneg hpot.le (div_nonneg (hpy cp) (hy18 cp).le))
    have hT := mul_nonneg hK (sub_nonneg.mpr hy)
    have h0 : c.est_payroll * c.payroll_alloc cp *
          (1 + c.payroll_pct_ot *
            (c.proj_yield_farm_crop cp.toCrop * y1 / c.yield_2018 cp - 1)) -
        c.est_payroll * c.payroll_alloc cp *
          (1 + c.payroll_pct_ot *
            (c.proj_yield_farm_crop cp.toCrop * y2 / c.yield_2018 cp - 1)) =
        -(c.est_payroll * c.payroll_alloc cp *
          (c.payroll_pct_ot * (c.proj_yield_farm_crop cp.toCrop / c.yield_2018 cp)) *
          (y2 - y1)) := by
      ring
    linarith
  have hvarm : ∀ cp : CS, c.cs_variable_cost cp y1 ≤ c.cs_variable_cost cp y2 := by
    intro cp
    unfold Cost.cs_variable_cost
    have h1 : ((c.total_fert_crop cp y1 : ℤ) : ℚ) ≤ ((c.total_fert_crop cp y2 : ℤ) : ℚ) := by
      exact_mod_cast hfertm cp
    have h2 : ((c.diesel_cost_crop cp y1 : ℤ) : ℚ) ≤ ((c.diesel_cost_crop cp y2 : ℤ) : ℚ) := by
      exact_mod_cast hdieselm cp
    have h3 : ((c.gas_electric_cost_crop cp y1 : ℤ) : ℚ) ≤
        ((c.gas_electric_cost_crop cp y2 : ℤ) : ℚ) := by
      exact_mod_cast hgasm cp
    linarith
  have hoverm : ∀ cp : CS, c.total_overhead_crop cp y1 ≤ c.total_overhead_crop cp y2 := by
    intro cp
    unfold Cost.total_overhead_crop
    have h1 : ((c.payroll_crop cp y1 : ℤ) : ℚ) ≤ ((c.payroll_crop cp y2 : ℤ) : ℚ) := by
      exact_mod_cast hpaym cp
    linarith
  have hw2 : ((c.incremental_wheat_cost y1 : ℤ) : ℚ) ≤
      ((c.incremental_wheat_cost y2 : ℤ) : ℚ) := by
    exact_mod_cast hwheatm
  unfold Cost.total_cost Cost.total_variable_cost Cost.total_overhead
  simp only [Cost.total_variable_cost_crop]
  linarith [hvarm CS.corn, hvarm CS.soy, hoverm CS.corn, hoverm CS.soy]

theorem total_cost_mono_witness :
    Cost.total_cost cexCost 1 ≤ Cost.total_cost cexCost (11/10) :=
  total_cost_mono_in_yield_factor cexCost 1 (11/10) (by norm_num)
    (by norm_num [cexCost]) (by norm_num [cexCost]) (by norm_num [cexCost])
    (by norm_num [cexCost]) (by norm_num [cexCost]) (by norm_num [cexCost])
    (by norm_num [cexCost]) (by norm_num [cexCost]) (by norm_num [cexCost])
    (by norm_num [cexCost]) (by norm_num [cexCost]) (by norm_num [cexCost])
    (by norm_num [cexCost]) (by norm_num [cexCost]) (by norm_num [cexCost])
    (by norm_num [cexCost]) (by norm_num [cexCost]) (by norm_num [cexCost])
    (by norm_num [cexCost]) (by norm_num [cexCost]) (by norm_num [cexCost])
    (by norm_num [cexCost]) (by norm_num [cexCost]) (by norm_num [cexCost])
    (by norm_num [cexCost])

/-- Claim C3 counterexample: at this fact set every fact the claim requires
to be positive is positive and 1 < 11/10, yet total_cost(1) equals
total_cost(11/10) because no rounded subtotal moves, so the strict
inequality the claim states fails. -/
theorem total_cost_not_strictly_mono :
    (0 < cexCost.dap_corn ∧ 0 < cexCost.repl_potash_corn ∧
      0 < cexCost.dap_soy ∧ 0 < cexCost.repl_potash_soy ∧
      0 < cexCost.wheat_hauling_base ∧ 0 < cexCost.clear_gpa_2018 ∧
      0 < cexCost.clear_diesel_price ∧ 0 < cexCost.fuel_alloc_corn ∧
      0 < cexCost.fuel_alloc_soy ∧ 0 < cexCost.est_haul_alloc ∧
      0 < cexCost.gas_electric_corn ∧ 0 < cexCost.gas_electric_soy ∧
      0 < cexCost.est_payroll ∧ 0 < cexCost.payroll_alloc_corn ∧
      0 < cexCost.payroll_alloc_soy ∧ 0 < cexCost.payroll_pct_ot) ∧
    (1 : ℚ) < 11/10 ∧
    ¬ Cost.total_cost cexCost 1 < Cost.total_cost cexCost (11/10) := by
  refine ⟨by norm_num [cexCost], by norm_num, ?_⟩
  intro hlt
  have h : Cost.total_cost cexCost 1 = Cost.total_cost cexCost (11/10) := by
    with_unfolding_all rfl
  rw [h] at hlt
  exact lt_irrefl _ hlt
